import Mathlib

/-!
Shallow embedding of `analyze_structure.py` (Multimodal-Protein-Analysis-Pipeline).

The script parses a PDB structure, builds three per-residue feature maps
(`calculate_sasa`, `extract_plddt_values`, `calculate_secondary_structure`),
joins them against a label CSV with flexible column naming, and writes an
output table plus a derived summary file (`analyze_epitopes`).

Modelling conventions:
- CSV cell values are an inductive `Value` (missing/NaN, integer, string).
  Floating-point numerics that the claims never inspect arithmetically are
  modelled over `Rat`.
- Python exceptions (`KeyError`, `ValueError`) become `Except PyError`.
- Python dicts keyed by residue number become insertion-ordered association
  lists with overwrite-on-insert (`dictInsert`), lookup-with-default
  (`dictGet`), as used by `dict.get(k, default)`.
- `np.mean` over a residue's atom B-factors is modelled as rational
  sum/length; a residue parsed from a PDB file always has at least one atom,
  so the empty case (where NumPy would give NaN) is unreachable.
- Display rounding (`:.2f`) is presentational and not modelled; summary and
  console output are modelled as structured lines (`SummaryLine`) carrying
  the exact quantities the script formats.
-/

namespace AnalyzeStructure

/-- A CSV / pandas cell value: missing (NaN), an integer, or a string. -/
inductive Value where
  | na : Value
  | int : Int → Value
  | str : String → Value
deriving DecidableEq, Repr

/-- `pd.isna` on a cell value. -/
def Value.isna : Value → Bool
  | Value.na => true
  | _ => false

/-- Python exceptions that `analyze_epitopes` can raise. -/
inductive PyError where
  | keyError : String → PyError
  | valueError : PyError
deriving DecidableEq, Repr

/-- Accumulate a decimal digit string into a natural number; `none` on any
non-digit character. -/
def digitsAcc : List Char → Nat → Option Nat
  | [], acc => some acc
  | c :: cs, acc =>
    if c.isDigit then digitsAcc cs (acc * 10 + (c.toNat - 48)) else none

/-- Python `int(s)` on a string: an optional sign followed by at least one
decimal digit (whitespace/underscore forms are not modelled). -/
def parsePyInt (s : String) : Option Int :=
  match s.toList with
  | [] => none
  | '-' :: cs => if cs.isEmpty then none else (digitsAcc cs 0).map (fun n => -(n : Int))
  | cs => (digitsAcc cs 0).map (fun n => (n : Int))

/-- Python `int(v)` on a cell value; raises `ValueError` on NaN or a
non-numeric string. -/
def pyIntOfValue : Value → Except PyError Int
  | Value.na => Except.error PyError.valueError
  | Value.int z => Except.ok z
  | Value.str s =>
    match parsePyInt s with
    | some z => Except.ok z
    | none => Except.error PyError.valueError

/-- Does the dict hold key `k`? -/
def dictHasKey {α : Type} (d : List (Int × α)) (k : Int) : Bool :=
  d.any (fun p => p.1 = k)

/-- Python dict assignment `d[k] = v`: overwrite in place if present, else
append (insertion order preserved). -/
def dictInsert {α : Type} (k : Int) (v : α) (d : List (Int × α)) : List (Int × α) :=
  if dictHasKey d k then d.map (fun p => if p.1 = k then (k, v) else p)
  else d ++ [(k, v)]

/-- Python `d.get(k, default)`. -/
def dictGet {α : Type} (d : List (Int × α)) (k : Int) (dflt : α) : α :=
  match d.find? (fun p => p.1 = k) with
  | some p => p.2
  | none => dflt

/-- The dict's key list. -/
def dictKeys {α : Type} (d : List (Int × α)) : List Int :=
  d.map Prod.fst

/-- An atom of a parsed PDB structure; only its B-factor (pLDDT proxy) is
read by the script. -/
structure Atom where
  bfactor : Rat
deriving DecidableEq, Repr

/-- A residue of a parsed structure: `hetfield` is `residue.id[0]` (`" "` for
standard residues), `resSeq` is `residue.id[1]`, `sasa` is the per-residue
area attached by the Shrake-Rupley computation. -/
structure Residue where
  hetfield : String
  resSeq : Int
  sasa : Rat
  atoms : List Atom
deriving DecidableEq, Repr

/-- A chain of a parsed structure. -/
structure Chain where
  residues : List Residue
deriving DecidableEq, Repr

/-- A model of a parsed structure. -/
structure PDBModel where
  chains : List Chain
deriving DecidableEq, Repr

/-- A parsed PDB structure (models → chains → residues → atoms). -/
structure PDBStructure where
  models : List PDBModel
deriving DecidableEq, Repr

/-- The residues visited by the nested `for model / for chain / for residue`
loops, in iteration order. -/
def residuesOf (s : PDBStructure) : List Residue :=
  s.models.flatMap (fun m => m.chains.flatMap (fun c => c.residues))

/-- Shared shape of the three feature-map builders: fold the residue
iteration, inserting `f r` under key `resSeq` for standard residues only. -/
def buildMapAux {α : Type} (f : Residue → α) (l : List Residue)
    (d : List (Int × α)) : List (Int × α) :=
  l.foldl (fun d r => if r.hetfield = " " then dictInsert r.resSeq (f r) d else d) d

/-- `calculate_sasa`: per-residue solvent-accessible surface area for every
standard residue. -/
def calculate_sasa (s : PDBStructure) : List (Int × Rat) :=
  buildMapAux (fun r => r.sasa) (residuesOf s) []

/-- Mean B-factor of a residue's atoms (`np.mean`). -/
def residueMeanB (r : Residue) : Rat :=
  (r.atoms.map Atom.bfactor).sum / (r.atoms.length : Rat)

/-- `extract_plddt_values`: mean atom B-factor for every standard residue. -/
def extract_plddt_values (s : PDBStructure) : List (Int × Rat) :=
  buildMapAux residueMeanB (residuesOf s) []

/-- `calculate_secondary_structure`: the constant placeholder `"C"` for every
standard residue. -/
def calculate_secondary_structure (s : PDBStructure) : List (Int × String) :=
  buildMapAux (fun _ => "C") (residuesOf s) []

/-- A loaded label table: header plus rows of cells, positionally aligned
with the header. -/
structure DataFrame where
  cols : List String
  cells : List (List Value)
deriving DecidableEq, Repr

/-- Position of a column name in the header. -/
def colIndex : List String → String → Option Nat
  | [], _ => none
  | a :: as, c => if a = c then some 0 else (colIndex as c).map (· + 1)

/-- `row[c]` as an `Option`: the cell under column `c`, or `none` when the
column is absent (pandas raises `KeyError` there). -/
def rowCell (cols : List String) (row : List Value) (c : String) : Option Value :=
  (colIndex cols c).bind (fun i => row.get? i)

/-- `row.get(c, dflt)` on a pandas Series: the stored value (NaN included)
when the column is present, else the default. -/
def seriesGet (cols : List String) (row : List Value) (c : String) (dflt : Value) : Value :=
  match rowCell cols row c with
  | some v => v
  | none => dflt

/-- The `column_mapping` dict: each logical field is mapped to an actual
column name, or unmapped (key absent). -/
structure ColumnMapping where
  residue_index : Option String
  residue_name : Option String
  is_epitope : Option String
deriving DecidableEq, Repr

/-- Lines 91-105: resolve each logical field to the first accepted alias
present in the header, else the second, else leave it unmapped. -/
def buildColumnMapping (cols : List String) : ColumnMapping where
  residue_index :=
    if "uniprot_pos" ∈ cols then some "uniprot_pos"
    else if "residue_index" ∈ cols then some "residue_index" else none
  residue_name :=
    if "uniprot_aa" ∈ cols then some "uniprot_aa"
    else if "residue_name" ∈ cols then some "residue_name" else none
  is_epitope :=
    if "label_epitope" ∈ cols then some "label_epitope"
    else if "is_epitope" ∈ cols then some "is_epitope" else none

/-- One output row (`result_row`). -/
structure MergedRecord where
  residue_index : Int
  residue_name : Value
  is_epitope : Int
  sasa : Rat
  plddt : Rat
  secondary_structure : String
  original_sasa_complex : Value
  original_sasa_monomer : Value
deriving DecidableEq, Repr

/-- Line 122: `row[column_mapping['residue_name']] if
column_mapping['residue_name'] in row else 'UNK'`. Python indexes the
`column_mapping` dict before the membership guard, so an unmapped name field
raises `KeyError('residue_name')`. -/
def readResidueName (cm : ColumnMapping) (cols : List String) (row : List Value) :
    Except PyError Value :=
  match cm.residue_name with
  | none => Except.error (PyError.keyError "residue_name")
  | some c =>
    if c ∈ cols then
      match rowCell cols row c with
      | some v => Except.ok v
      | none => Except.error (PyError.keyError c)
    else Except.ok (Value.str "UNK")

/-- Line 123: `int(row[column_mapping['is_epitope']]) if
column_mapping['is_epitope'] in row and not pd.isna(...) else 0`. As with the
name field, the `column_mapping` dict is indexed before the guard. -/
def readEpitopeFlag (cm : ColumnMapping) (cols : List String) (row : List Value) :
    Except PyError Int :=
  match cm.is_epitope with
  | none => Except.error (PyError.keyError "is_epitope")
  | some c =>
    if c ∈ cols then
      match rowCell cols row c with
      | some v => if v.isna then Except.ok 0 else pyIntOfValue v
      | none => Except.error (PyError.keyError c)
    else Except.ok 0

/-- Lines 113-130: process one label row. `Except.ok none` models the
`continue` on a missing (NaN) index; errors model uncaught exceptions. -/
def processRow (sasaM plddtM : List (Int × Rat)) (ssM : List (Int × String))
    (cm : ColumnMapping) (cols : List String) (row : List Value) :
    Except PyError (Option MergedRecord) := do
  let idxCol ←
    match cm.residue_index with
    | none => Except.error (PyError.keyError "residue_index")
    | some c => Except.ok c
  let res_idx ←
    match rowCell cols row idxCol with
    | some v => Except.ok v
    | none => Except.error (PyError.keyError idxCol)
  if res_idx.isna then
    return none
  else
    let idx ← pyIntOfValue res_idx
    let rname ← readResidueName cm cols row
    let epi ← readEpitopeFlag cm cols row
    return some {
      residue_index := idx
      residue_name := rname
      is_epitope := epi
      sasa := dictGet sasaM idx 0
      plddt := dictGet plddtM idx 0
      secondary_structure := dictGet ssM idx "Unknown"
      original_sasa_complex := seriesGet cols row "sasa_complex" (Value.int 0)
      original_sasa_monomer := seriesGet cols row "sasa_monomer" (Value.int 0) }

/-- The `for _, row in truth_df.iterrows()` loop accumulating `results`. -/
def runRows (sasaM plddtM : List (Int × Rat)) (ssM : List (Int × String))
    (cm : ColumnMapping) (cols : List String) :
    List (List Value) → Except PyError (List MergedRecord)
  | [] => Except.ok []
  | row :: rest => do
    let m? ← processRow sasaM plddtM ssM cm cols row
    let tail ← runRows sasaM plddtM ssM cm cols rest
    match m? with
    | some m => return m :: tail
    | none => return tail

/-- Insert a record into a list sorted ascending by `residue_index`, after
any equal keys. -/
def insertSorted (m : MergedRecord) : List MergedRecord → List MergedRecord
  | [] => [m]
  | x :: xs =>
    if x.residue_index ≤ m.residue_index then x :: insertSorted m xs
    else m :: x :: xs

/-- Line 134: `results_df.sort_values('residue_index')`, modelled as an
insertion sort ascending by `residue_index`. (pandas' default sort kind is
`quicksort`; its ordering of equal keys is not specified by the library and
is not modelled — no theorem below depends on tie order.) -/
def sortByIndex (rs : List MergedRecord) : List MergedRecord :=
  rs.foldl (fun acc m => insertSorted m acc) []

/-- The epitope subset `results_df[results_df['is_epitope'] == 1]`. -/
def epitopeSubset (rs : List MergedRecord) : List MergedRecord :=
  rs.filter (fun r => r.is_epitope = 1)

/-- The non-epitope subset `results_df[results_df['is_epitope'] == 0]`. -/
def nonEpitopeSubset (rs : List MergedRecord) : List MergedRecord :=
  rs.filter (fun r => r.is_epitope = 0)

/-- `series.mean()`: `none` models NumPy's NaN on an empty series. -/
def listMean (l : List Rat) : Option Rat :=
  if l.isEmpty then none else some (l.sum / (l.length : Rat))

/-- One structured line of the console statistics block or of the summary
file (display formatting abstracted). -/
inductive SummaryLine where
  | header
  | inputPdb (p : String)
  | truthCsv (p : String)
  | totalResidues (n : Nat)
  | epitopeResidues (n : Nat)
  | nonEpitopeResidues (n : Nat)
  | meanPlddtEpi (x : Option Rat)
  | meanPlddtNon (x : Option Rat)
  | meanSasaEpi (x : Option Rat)
  | meanSasaNon (x : Option Rat)
deriving DecidableEq, Repr

/-- Is this line one of the four mean-statistics lines? -/
def SummaryLine.isMeanLine : SummaryLine → Bool
  | SummaryLine.meanPlddtEpi _ => true
  | SummaryLine.meanPlddtNon _ => true
  | SummaryLine.meanSasaEpi _ => true
  | SummaryLine.meanSasaNon _ => true
  | _ => false

/-- Lines 137-153 / 165-173: the counts, then — only when the epitope count
is positive — the four mean lines. The non-epitope count is printed as
`total_count - epitope_count`. -/
def statLines (rs : List MergedRecord) : List SummaryLine :=
  let epi := epitopeSubset rs
  let non := nonEpitopeSubset rs
  let ec := epi.length
  let tc := rs.length
  [SummaryLine.totalResidues tc, SummaryLine.epitopeResidues ec,
   SummaryLine.nonEpitopeResidues (tc - ec)]
  ++ (if ec > 0 then
        [SummaryLine.meanPlddtEpi (listMean (epi.map MergedRecord.plddt)),
         SummaryLine.meanPlddtNon (listMean (non.map MergedRecord.plddt)),
         SummaryLine.meanSasaEpi (listMean (epi.map MergedRecord.sasa)),
         SummaryLine.meanSasaNon (listMean (non.map MergedRecord.sasa))]
      else [])

/-- Lines 162-173: the summary file's content. -/
def summaryFileLines (pdbPath truthPath : String) (rs : List MergedRecord) :
    List SummaryLine :=
  [SummaryLine.header, SummaryLine.inputPdb pdbPath, SummaryLine.truthCsv truthPath]
  ++ statLines rs

/-- Line 160: `output_file.replace('.csv', '_summary.txt')` — Python's
`str.replace` substitutes every (left-to-right, non-overlapping) occurrence
of `.csv` and leaves a string without one unchanged. -/
def deriveSummaryPath : List Char → List Char
  | c :: c1 :: c2 :: c3 :: rest =>
    if c = '.' ∧ c1 = 'c' ∧ c2 = 's' ∧ c3 = 'v' then
      "_summary.txt".toList ++ deriveSummaryPath rest
    else c :: deriveSummaryPath (c1 :: c2 :: c3 :: rest)
  | c :: t => c :: deriveSummaryPath t
  | [] => []

/-- Does `.csv` occur anywhere in the character list? -/
def occursCsv : List Char → Bool
  | c :: c1 :: c2 :: c3 :: rest =>
    decide (c = '.' ∧ c1 = 'c' ∧ c2 = 's' ∧ c3 = 'v') || occursCsv (c1 :: c2 :: c3 :: rest)
  | _ => false

/-- Everything a successful run writes: the sorted output table, the console
statistics block, the summary file's lines, and the two artifact paths. -/
structure RunOutput where
  records : List MergedRecord
  consoleStats : List SummaryLine
  summaryLines : List SummaryLine
  tablePath : List Char
  summaryPath : List Char
deriving DecidableEq, Repr

/-- The two artifact paths of a run, table first. -/
def pathsOf (o : RunOutput) : List Char × List Char :=
  (o.tablePath, o.summaryPath)

/-- `analyze_epitopes` from the three computed feature maps onward (lines
90-175): schema resolution, the join loop, the sort, statistics, and the two
artifacts. An `Except.error` models an uncaught exception: the run aborts
and neither artifact is written (both writes happen after every step that
can raise). `pd.DataFrame([])` built from an empty `results` list has no
columns, so `sort_values('residue_index')` raises `KeyError`. -/
def analyze_epitopes (s : PDBStructure) (df : DataFrame)
    (pdbPath truthPath : String) (outPath : List Char) :
    Except PyError RunOutput := do
  let sasaM := calculate_sasa s
  let plddtM := extract_plddt_values s
  let ssM := calculate_secondary_structure s
  let cm := buildColumnMapping df.cols
  let results ← runRows sasaM plddtM ssM cm df.cols df.cells
  if results.isEmpty then
    Except.error (PyError.keyError "residue_index")
  else
    let sorted := sortByIndex results
    return {
      records := sorted
      consoleStats := statLines sorted
      summaryLines := summaryFileLines pdbPath truthPath sorted
      tablePath := outPath
      summaryPath := deriveSummaryPath outPath }

/-- Alias-set-A header: primary names plus the two fixed pass-through
columns. -/
def colsA : List String :=
  ["uniprot_pos", "uniprot_aa", "label_epitope", "sasa_complex", "sasa_monomer"]

/-- Alias-set-B header: fallback names plus the two fixed pass-through
columns. -/
def colsB : List String :=
  ["residue_index", "residue_name", "is_epitope", "sasa_complex", "sasa_monomer"]

end AnalyzeStructure

namespace AnalyzeStructure

/-! ### Helper lemmas about the embedded operations -/

/-- A dict holds a key exactly when the key is in its key list. -/
theorem dictHasKey_iff {α : Type} (d : List (Int × α)) (k : Int) :
    dictHasKey d k = true ↔ k ∈ dictKeys d := by
  simp only [dictHasKey, dictKeys, List.any_eq_true, decide_eq_true_eq, List.mem_map]

/-- `dict.get(k, default)` returns the default when the key is absent. -/
theorem dictGet_of_not_hasKey {α : Type} (d : List (Int × α)) (k : Int) (dflt : α)
    (h : dictHasKey d k = false) : dictGet d k dflt = dflt := by
  unfold dictGet
  have hf : d.find? (fun p => decide (p.1 = k)) = none := by
    rw [List.find?_eq_none]
    intro x hx
    simp only [dictHasKey, List.any_eq_false] at h
    simpa using h x hx
  rw [hf]

/-- Keys after a dict assignment: unchanged on overwrite, appended on a new
key. -/
theorem dictKeys_dictInsert {α : Type} (k : Int) (v : α) (d : List (Int × α)) :
    dictKeys (dictInsert k v d) =
      if dictHasKey d k then dictKeys d else dictKeys d ++ [k] := by
  unfold dictInsert
  split
  · next hk =>
    simp only [if_pos hk, dictKeys, List.map_map]
    apply List.map_congr_left
    intro p _
    simp only [Function.comp]
    split <;> simp_all
  · next hk => simp [if_neg hk, dictKeys]

/-- Membership in the keys of a dict after an assignment. -/
theorem mem_dictKeys_dictInsert {α : Type} (i k : Int) (v : α) (d : List (Int × α)) :
    i ∈ dictKeys (dictInsert k v d) ↔ i ∈ dictKeys d ∨ i = k := by
  rw [dictKeys_dictInsert]
  split
  · next hk =>
    constructor
    · exact Or.inl
    · rintro (hi | rfl)
      · exact hi
      · exact (dictHasKey_iff d i).mp hk
  · simp

/-- The key structure of the residue-iteration fold is independent of the
value function being stored. -/
theorem keys_buildMapAux_congr {α β : Type} (f : Residue → α) (g : Residue → β)
    (l : List Residue) (d : List (Int × α)) (d' : List (Int × β))
    (h : dictKeys d = dictKeys d') :
    dictKeys (buildMapAux f l d) = dictKeys (buildMapAux g l d') := by
  induction l generalizing d d' with
  | nil => exact h
  | cons r l' ih =>
    simp only [buildMapAux, List.foldl_cons] at *
    apply ih
    split
    · have hb : dictHasKey d r.resSeq = dictHasKey d' r.resSeq := by
        rw [Bool.eq_iff_iff, dictHasKey_iff, dictHasKey_iff, h]
      rw [dictKeys_dictInsert, dictKeys_dictInsert, hb, h]
    · exact h

/-- A key is in the built feature map exactly when it was already present or
some standard residue of the iteration carries it. -/
theorem mem_keys_buildMapAux {α : Type} (f : Residue → α) (l : List Residue)
    (d : List (Int × α)) (i : Int) :
    i ∈ dictKeys (buildMapAux f l d) ↔
      i ∈ dictKeys d ∨ ∃ r ∈ l, r.hetfield = " " ∧ r.resSeq = i := by
  induction l generalizing d with
  | nil => simp [buildMapAux]
  | cons r l' ih =>
    simp only [buildMapAux, List.foldl_cons] at *
    rw [ih]
    by_cases hstd : r.hetfield = " "
    · rw [if_pos hstd, mem_dictKeys_dictInsert]
      simp only [List.mem_cons]
      constructor
      · rintro ((hi | rfl) | ⟨r', hr', hp⟩)
        · exact Or.inl hi
        · exact Or.inr ⟨r, Or.inl rfl, hstd, rfl⟩
        · exact Or.inr ⟨r', Or.inr hr', hp⟩
      · rintro (hi | ⟨r', (rfl | hr'), hp⟩)
        · exact Or.inl (Or.inl hi)
        · exact Or.inl (Or.inr hp.2.symm)
        · exact Or.inr ⟨r', hr', hp⟩
    · rw [if_neg hstd]
      simp only [List.mem_cons]
      constructor
      · rintro (hi | ⟨r', hr', hp⟩)
        · exact Or.inl hi
        · exact Or.inr ⟨r', Or.inr hr', hp⟩
      · rintro (hi | ⟨r', (rfl | hr'), hp⟩)
        · exact Or.inl hi
        · exact absurd hp.1 hstd
        · exact Or.inr ⟨r', hr', hp⟩

/-- Looking a name up in a header it does not appear in yields no position. -/
theorem colIndex_eq_none {cols : List String} {c : String} (h : c ∉ cols) :
    colIndex cols c = none := by
  induction cols with
  | nil => rfl
  | cons a as ih =>
    simp only [List.mem_cons, not_or] at h
    simp only [colIndex]
    rw [if_neg (Ne.symm h.1), ih h.2]
    rfl

/-- `row.get(c, dflt)` returns the default when the column is absent. -/
theorem seriesGet_of_not_mem {cols : List String} {c : String} (row : List Value)
    (dflt : Value) (h : c ∉ cols) : seriesGet cols row c dflt = dflt := by
  simp [seriesGet, rowCell, colIndex_eq_none h]

/-- A successfully merged record's feature and pass-through fields are the
dict lookups and `row.get` reads the source computes, at the coerced index
stored in the record. -/
theorem processRow_ok_fields (sasaM plddtM : List (Int × Rat)) (ssM : List (Int × String))
    (cm : ColumnMapping) (cols : List String) (row : List Value) (m : MergedRecord)
    (h : processRow sasaM plddtM ssM cm cols row = Except.ok (some m)) :
    m.sasa = dictGet sasaM m.residue_index 0 ∧
    m.plddt = dictGet plddtM m.residue_index 0 ∧
    m.secondary_structure = dictGet ssM m.residue_index "Unknown" ∧
    m.original_sasa_complex = seriesGet cols row "sasa_complex" (Value.int 0) ∧
    m.original_sasa_monomer = seriesGet cols row "sasa_monomer" (Value.int 0) := by
  unfold processRow at h
  simp only [bind, Except.bind, pure, Except.pure] at h
  repeat' split at h
  all_goals simp_all
  all_goals (obtain rfl := h; simp)

/-- With an empty epitope subset every statistics line is a count line. -/
theorem statLines_no_mean (rs : List MergedRecord) (h : epitopeSubset rs = []) :
    ∀ l ∈ statLines rs, l.isMeanLine = false := by
  simp [statLines, h, SummaryLine.isMeanLine]

end AnalyzeStructure

/-! ### Claim theorems -/

namespace AnalyzeStructure

/-- Claim C1 (code divergence at the failing input): a label row whose index
value is present but not coercible to an integer (the non-numeric string
"abc") makes the whole run abort with a ValueError from `int(res_idx)`
(line 121) before any artifact is written — the row is not dropped and the
run does not continue, contrary to the claimed drop-and-continue policy. -/
theorem c1_noncoercible_index_aborts_run :
    analyze_epitopes ⟨[]⟩
      ⟨["uniprot_pos", "uniprot_aa", "label_epitope"],
       [[Value.str "abc", Value.str "A", Value.int 1],
        [Value.int 2, Value.str "G", Value.int 0]]⟩
      "structure.pdb" "labels.csv" "out.csv".toList =
    Except.error PyError.valueError := rfl

/-- Claim C2 (code divergence at the failing input): when neither name-column
alias is present, line 122 evaluates `column_mapping['residue_name']` before
its membership guard, so the first processed row raises KeyError and the run
aborts — the row does not degrade to the defaults 'UNK'/0. -/
theorem c2_unmapped_name_column_aborts_run :
    analyze_epitopes ⟨[]⟩ ⟨["uniprot_pos"], [[Value.int 1]]⟩
      "structure.pdb" "labels.csv" "out.csv".toList =
    Except.error (PyError.keyError "residue_name") := rfl

/-- Claim C3: if neither accepted index-column alias ('uniprot_pos' or
'residue_index') is present in the label table's header, the run fails with
the fatal KeyError 'residue_index' — raised before any label row yields a
merged record — and, since both artifacts are written only after the whole
pipeline succeeds, no output artifact is written (an `Except.error` result
carries no `RunOutput`). -/
theorem c3_missing_index_column_fatal (s : PDBStructure) (df : DataFrame)
    (pdbPath truthPath : String) (outPath : List Char)
    (h1 : "uniprot_pos" ∉ df.cols) (h2 : "residue_index" ∉ df.cols) :
    analyze_epitopes s df pdbPath truthPath outPath =
      Except.error (PyError.keyError "residue_index") := by
  have hcm : (buildColumnMapping df.cols).residue_index = none := by
    simp [buildColumnMapping, h1, h2]
  obtain ⟨cols, cells⟩ := df
  cases cells with
  | nil => simp [analyze_epitopes, runRows, bind, Except.bind, hcm]
  | cons r rs =>
    simp only at hcm
    simp [analyze_epitopes, runRows, processRow, hcm, bind, Except.bind]

/-- Witness for C3 at a concrete header lacking both index aliases. -/
theorem c3_missing_index_column_fatal_witness :
    ("uniprot_pos" ∉ ["position", "uniprot_aa"] ∧
     "residue_index" ∉ ["position", "uniprot_aa"]) ∧
    analyze_epitopes ⟨[]⟩ ⟨["position", "uniprot_aa"], [[Value.int 1, Value.str "A"]]⟩
      "structure.pdb" "labels.csv" "out.csv".toList =
      Except.error (PyError.keyError "residue_index") :=
  ⟨by decide,
   c3_missing_index_column_fatal ⟨[]⟩
     ⟨["position", "uniprot_aa"], [[Value.int 1, Value.str "A"]]⟩
     "structure.pdb" "labels.csv" "out.csv".toList (by decide) (by decide)⟩

/-- A label row of full width is processed identically under the alias-set-A
header and the alias-set-B header. -/
theorem processRow_colsA_eq_colsB (m1 m2 : List (Int × Rat)) (m3 : List (Int × String))
    (row : List Value) (h : row.length = 5) :
    processRow m1 m2 m3 (buildColumnMapping colsA) colsA row =
    processRow m1 m2 m3 (buildColumnMapping colsB) colsB row := by
  rcases row with _ | ⟨v0, _ | ⟨v1, _ | ⟨v2, _ | ⟨v3, _ | ⟨v4, rest⟩⟩⟩⟩⟩ <;> simp at h
  subst h
  simp [processRow, readResidueName, readEpitopeFlag, buildColumnMapping,
    colsA, colsB, seriesGet, rowCell, colIndex, bind, Except.bind, pure, Except.pure,
    Functor.map, Except.map]

/-- The whole join loop is invariant under swapping the alias-set-A header
for the alias-set-B header. -/
theorem runRows_colsA_eq_colsB (m1 m2 : List (Int × Rat)) (m3 : List (Int × String))
    (cells : List (List Value)) (h : ∀ row ∈ cells, row.length = 5) :
    runRows m1 m2 m3 (buildColumnMapping colsA) colsA cells =
    runRows m1 m2 m3 (buildColumnMapping colsB) colsB cells := by
  induction cells with
  | nil => rfl
  | cons r rs ih =>
    simp only [runRows, bind, Except.bind]
    rw [processRow_colsA_eq_colsB m1 m2 m3 r (h r (by simp))]
    rw [ih (fun row hr => h row (by simp [hr]))]

/-- Claim C4: two runs against the same structure, one with a label table
under alias-set-A column names ('uniprot_pos'/'uniprot_aa'/'label_epitope')
and one with identical cell values under alias-set-B names
('residue_index'/'residue_name'/'is_epitope'), produce identical results —
the same sorted record table, statistics, summary lines and paths, hence
byte-identical written artifacts. Rows carry one cell per column. -/
theorem c4_alias_sets_give_identical_output (s : PDBStructure)
    (cells : List (List Value)) (pdbPath truthPath : String) (outPath : List Char)
    (h : ∀ row ∈ cells, row.length = 5) :
    analyze_epitopes s ⟨colsA, cells⟩ pdbPath truthPath outPath =
    analyze_epitopes s ⟨colsB, cells⟩ pdbPath truthPath outPath := by
  simp only [analyze_epitopes, bind, Except.bind]
  rw [runRows_colsA_eq_colsB _ _ _ cells h]

/-- Witness for C4 at a concrete two-row table. -/
theorem c4_alias_sets_give_identical_output_witness :
    (∀ row ∈ [[Value.int 2, Value.str "A", Value.int 1, Value.int 3, Value.int 4],
              [Value.int 1, Value.str "G", Value.int 0, Value.na, Value.int 7]],
       List.length row = 5) ∧
    analyze_epitopes ⟨[]⟩
      ⟨colsA, [[Value.int 2, Value.str "A", Value.int 1, Value.int 3, Value.int 4],
               [Value.int 1, Value.str "G", Value.int 0, Value.na, Value.int 7]]⟩
      "structure.pdb" "labels.csv" "out.csv".toList =
    analyze_epitopes ⟨[]⟩
      ⟨colsB, [[Value.int 2, Value.str "A", Value.int 1, Value.int 3, Value.int 4],
               [Value.int 1, Value.str "G", Value.int 0, Value.na, Value.int 7]]⟩
      "structure.pdb" "labels.csv" "out.csv".toList :=
  ⟨by decide,
   c4_alias_sets_give_identical_output ⟨[]⟩
     [[Value.int 2, Value.str "A", Value.int 1, Value.int 3, Value.int 4],
      [Value.int 1, Value.str "G", Value.int 0, Value.na, Value.int 7]]
     "structure.pdb" "labels.csv" "out.csv".toList (by decide)⟩

end AnalyzeStructure

namespace AnalyzeStructure

/-- Claim C6: a joined row whose coerced residue index has no matching
standard residue in the structure — hence is absent from all three feature
maps — yields a merged record with sasa=0, plddt=0 and
secondary_structure="Unknown". The lookups themselves (`dictGet`, the model
of `dict.get(k, default)`) are total functions, so a miss can never raise. -/
theorem c6_feature_map_miss_yields_defaults (s : PDBStructure) (cm : ColumnMapping)
    (cols : List String) (row : List Value) (m : MergedRecord)
    (h : processRow (calculate_sasa s) (extract_plddt_values s)
      (calculate_secondary_structure s) cm cols row = Except.ok (some m))
    (habs : ¬ ∃ r ∈ residuesOf s, r.hetfield = " " ∧ r.resSeq = m.residue_index) :
    m.sasa = 0 ∧ m.plddt = 0 ∧ m.secondary_structure = "Unknown" := by
  obtain ⟨hs, hp, hss, -, -⟩ := processRow_ok_fields _ _ _ _ _ _ _ h
  have hks : m.residue_index ∉ dictKeys (calculate_sasa s) := by
    intro hk
    rcases (mem_keys_buildMapAux (fun r => r.sasa) (residuesOf s)
        ([] : List (Int × Rat)) m.residue_index).mp
        (by simpa [calculate_sasa] using hk) with h0 | hex
    · simp [dictKeys] at h0
    · exact habs hex
  have khp : dictKeys (extract_plddt_values s) = dictKeys (calculate_sasa s) :=
    keys_buildMapAux_congr residueMeanB (fun r => r.sasa) (residuesOf s) [] [] rfl
  have khs : dictKeys (calculate_secondary_structure s) = dictKeys (calculate_sasa s) :=
    keys_buildMapAux_congr (fun _ => "C") (fun r => r.sasa) (residuesOf s) [] [] rfl
  have hfalse : ∀ {α : Type} (d : List (Int × α)),
      dictKeys d = dictKeys (calculate_sasa s) → dictHasKey d m.residue_index = false := by
    intro α d hd
    cases hb : dictHasKey d m.residue_index with
    | false => rfl
    | true => exact absurd (hd ▸ (dictHasKey_iff d m.residue_index).mp hb) hks
  refine ⟨?_, ?_, ?_⟩
  · rw [hs, dictGet_of_not_hasKey _ _ _ (hfalse _ rfl)]
  · rw [hp, dictGet_of_not_hasKey _ _ _ (hfalse _ khp)]
  · rw [hss, dictGet_of_not_hasKey _ _ _ (hfalse _ khs)]

/-- Witness for C6: a structure holding only standard residue 1 and a label
row for index 99. -/
theorem c6_feature_map_miss_yields_defaults_witness :
    (processRow
        (calculate_sasa ⟨[⟨[⟨[⟨" ", 1, 5, [⟨80⟩]⟩]⟩]⟩]⟩)
        (extract_plddt_values ⟨[⟨[⟨[⟨" ", 1, 5, [⟨80⟩]⟩]⟩]⟩]⟩)
        (calculate_secondary_structure ⟨[⟨[⟨[⟨" ", 1, 5, [⟨80⟩]⟩]⟩]⟩]⟩)
        (buildColumnMapping ["uniprot_pos", "uniprot_aa", "label_epitope"])
        ["uniprot_pos", "uniprot_aa", "label_epitope"]
        [Value.int 99, Value.str "A", Value.int 1] =
      Except.ok (some ⟨99, Value.str "A", 1, 0, 0, "Unknown", Value.int 0, Value.int 0⟩)) ∧
    (¬ ∃ r ∈ residuesOf ⟨[⟨[⟨[⟨" ", 1, 5, [⟨80⟩]⟩]⟩]⟩]⟩,
        r.hetfield = " " ∧
        r.resSeq = (⟨99, Value.str "A", 1, 0, 0, "Unknown", Value.int 0,
          Value.int 0⟩ : MergedRecord).residue_index) ∧
    ((⟨99, Value.str "A", 1, 0, 0, "Unknown", Value.int 0, Value.int 0⟩ :
        MergedRecord).sasa = 0 ∧
     (⟨99, Value.str "A", 1, 0, 0, "Unknown", Value.int 0, Value.int 0⟩ :
        MergedRecord).plddt = 0 ∧
     (⟨99, Value.str "A", 1, 0, 0, "Unknown", Value.int 0, Value.int 0⟩ :
        MergedRecord).secondary_structure = "Unknown") :=
  ⟨rfl, by decide,
   c6_feature_map_miss_yields_defaults ⟨[⟨[⟨[⟨" ", 1, 5, [⟨80⟩]⟩]⟩]⟩]⟩
     (buildColumnMapping ["uniprot_pos", "uniprot_aa", "label_epitope"])
     ["uniprot_pos", "uniprot_aa", "label_epitope"]
     [Value.int 99, Value.str "A", Value.int 1]
     ⟨99, Value.str "A", 1, 0, 0, "Unknown", Value.int 0, Value.int 0⟩
     rfl (by decide)⟩

/-- Claim C7 (counterexample): on a row whose `sasa_complex` cell is present
but undefined (NaN), the merged record stores NaN — not the documented
default 0 — because `row.get('sasa_complex', 0)` only substitutes the
default when the column (key) is absent. -/
theorem c7_nan_passthrough_not_defaulted :
    (processRow [] [] []
        (buildColumnMapping ["uniprot_pos", "uniprot_aa", "label_epitope", "sasa_complex"])
        ["uniprot_pos", "uniprot_aa", "label_epitope", "sasa_complex"]
        [Value.int 1, Value.str "A", Value.int 0, Value.na] =
      Except.ok (some ⟨1, Value.str "A", 0, 0, 0, "Unknown", Value.na, Value.int 0⟩)) ∧
    Value.na ≠ Value.int 0 :=
  ⟨rfl, by decide⟩

/-- Claim C7 (amended): for the fixed-name pass-through fields
'sasa_complex'/'sasa_monomer', the merged record stores the default 0 only
when the column is absent from the table; when the column is present the
raw cell value — including an undefined (NaN) one — is passed through
unchanged. -/
theorem c7_passthrough_default_only_when_column_absent
    (sasaM plddtM : List (Int × Rat)) (ssM : List (Int × String))
    (cm : ColumnMapping) (cols : List String) (row : List Value) (m : MergedRecord)
    (h : processRow sasaM plddtM ssM cm cols row = Except.ok (some m)) :
    (("sasa_complex" ∉ cols → m.original_sasa_complex = Value.int 0) ∧
      ∀ v, rowCell cols row "sasa_complex" = some v → m.original_sasa_complex = v) ∧
    (("sasa_monomer" ∉ cols → m.original_sasa_monomer = Value.int 0) ∧
      ∀ v, rowCell cols row "sasa_monomer" = some v → m.original_sasa_monomer = v) := by
  obtain ⟨-, -, -, hc, hm⟩ := processRow_ok_fields _ _ _ _ _ _ _ h
  refine ⟨⟨?_, ?_⟩, ?_, ?_⟩
  · intro hn
    rw [hc, seriesGet_of_not_mem _ _ hn]
  · intro v hv
    rw [hc]
    simp [seriesGet, hv]
  · intro hn
    rw [hm, seriesGet_of_not_mem _ _ hn]
  · intro v hv
    rw [hm]
    simp [seriesGet, hv]

/-- Witness for C7 (amended): a table carrying `sasa_complex` (with a NaN
cell, passed through) but no `sasa_monomer` column (defaulted to 0). -/
theorem c7_passthrough_default_only_when_column_absent_witness :
    (processRow [] [] []
        (buildColumnMapping ["uniprot_pos", "uniprot_aa", "label_epitope", "sasa_complex"])
        ["uniprot_pos", "uniprot_aa", "label_epitope", "sasa_complex"]
        [Value.int 1, Value.str "A", Value.int 0, Value.na] =
      Except.ok (some ⟨1, Value.str "A", 0, 0, 0, "Unknown", Value.na, Value.int 0⟩)) ∧
    rowCell ["uniprot_pos", "uniprot_aa", "label_epitope", "sasa_complex"]
      [Value.int 1, Value.str "A", Value.int 0, Value.na] "sasa_complex" = some Value.na ∧
    (⟨1, Value.str "A", 0, 0, 0, "Unknown", Value.na, Value.int 0⟩ :
      MergedRecord).original_sasa_complex = Value.na ∧
    "sasa_monomer" ∉ ["uniprot_pos", "uniprot_aa", "label_epitope", "sasa_complex"] ∧
    (⟨1, Value.str "A", 0, 0, 0, "Unknown", Value.na, Value.int 0⟩ :
      MergedRecord).original_sasa_monomer = Value.int 0 :=
  ⟨rfl, rfl,
   (c7_passthrough_default_only_when_column_absent [] [] []
     (buildColumnMapping ["uniprot_pos", "uniprot_aa", "label_epitope", "sasa_complex"])
     ["uniprot_pos", "uniprot_aa", "label_epitope", "sasa_complex"]
     [Value.int 1, Value.str "A", Value.int 0, Value.na]
     ⟨1, Value.str "A", 0, 0, 0, "Unknown", Value.na, Value.int 0⟩ rfl).1.2 Value.na rfl,
   by decide,
   (c7_passthrough_default_only_when_column_absent [] [] []
     (buildColumnMapping ["uniprot_pos", "uniprot_aa", "label_epitope", "sasa_complex"])
     ["uniprot_pos", "uniprot_aa", "label_epitope", "sasa_complex"]
     [Value.int 1, Value.str "A", Value.int 0, Value.na]
     ⟨1, Value.str "A", 0, 0, 0, "Unknown", Value.na, Value.int 0⟩ rfl).2.1 (by decide)⟩

/-- Claim C8 (counterexample): for the output table path "out.txt" (no
".csv" suffix), `replace('.csv', '_summary.txt')` leaves the path unchanged,
so the summary path equals the table path — the summary is not written to a
distinct file, and the claimed suffix replacement does not happen. -/
theorem c8_non_csv_path_summary_collides :
    (analyze_epitopes ⟨[]⟩ ⟨["uniprot_pos", "uniprot_aa", "label_epitope"],
        [[Value.int 1, Value.str "A", Value.int 0]]⟩
      "structure.pdb" "labels.csv" "out.txt".toList).map pathsOf =
    Except.ok ("out.txt".toList, "out.txt".toList) := rfl

/-- Claim C8 (amended): for every output table path that ends in ".csv" and
has no other occurrence of ".csv" (no occurrence inside the first
length-minus-one characters, i.e. inside `base ++ ".cs"`), the summary path
is exactly the base name with "_summary.txt" in place of the final ".csv",
and it differs from the table path. -/
theorem c8_unique_csv_suffix_replaced (base : List Char)
    (h : occursCsv (base ++ ['.', 'c', 's']) = false) :
    deriveSummaryPath (base ++ ['.', 'c', 's', 'v']) = base ++ "_summary.txt".toList ∧
    base ++ "_summary.txt".toList ≠ base ++ ['.', 'c', 's', 'v'] := by
  constructor
  · induction base with
    | nil => rfl
    | cons c b ih =>
      rcases b with _ | ⟨d1, _ | ⟨d2, _ | ⟨d3, b'⟩⟩⟩
      · simp [deriveSummaryPath]
      · simp [deriveSummaryPath]
      · simp [deriveSummaryPath]
      · simp only [occursCsv, List.cons_append, List.append_eq, Bool.or_eq_false_iff,
          decide_eq_false_iff_not] at h
        obtain ⟨h1, h2⟩ := h
        simp only [List.cons_append, List.append_eq, deriveSummaryPath, if_neg h1]
        have := ih (by simpa using h2)
        simp only [List.cons_append, List.append_eq] at this
        rw [this]
  · intro heq
    have := congrArg List.length heq
    simp [List.length_append] at this

/-- Witness for C8 (amended) at the path "out.csv". -/
theorem c8_unique_csv_suffix_replaced_witness :
    occursCsv (['o', 'u', 't'] ++ ['.', 'c', 's']) = false ∧
    (deriveSummaryPath (['o', 'u', 't'] ++ ['.', 'c', 's', 'v']) =
        ['o', 'u', 't'] ++ "_summary.txt".toList ∧
      ['o', 'u', 't'] ++ "_summary.txt".toList ≠ ['o', 'u', 't'] ++ ['.', 'c', 's', 'v']) :=
  ⟨by decide, c8_unique_csv_suffix_replaced ['o', 'u', 't'] (by decide)⟩

/-- Claim C9: when a run completes and its epitope subset is empty, neither
the console statistics block nor the summary file contains any of the four
mean lines — the means are omitted rather than emitted as NaN. -/
theorem c9_empty_epitope_subset_omits_means (s : PDBStructure) (df : DataFrame)
    (pdbPath truthPath : String) (outPath : List Char) (out : RunOutput)
    (h : analyze_epitopes s df pdbPath truthPath outPath = Except.ok out)
    (h0 : epitopeSubset out.records = []) :
    (∀ l ∈ out.summaryLines, l.isMeanLine = false) ∧
    (∀ l ∈ out.consoleStats, l.isMeanLine = false) := by
  unfold analyze_epitopes at h
  simp only [bind, Except.bind, pure, Except.pure] at h
  split at h
  · exact absurd h (by simp)
  · split at h
    · exact absurd h (by simp)
    · obtain rfl := (Except.ok.injEq _ _).mp h
      simp only at h0
      refine ⟨?_, statLines_no_mean _ h0⟩
      intro l hl
      simp only [summaryFileLines, List.mem_append, List.mem_cons] at hl
      rcases hl with ((rfl | rfl | rfl | hfalse) | hl)
      · rfl
      · rfl
      · rfl
      · simp at hfalse
      · exact statLines_no_mean _ h0 l hl

/-- Witness for C9: a completed run whose single merged record is
non-epitope; the summary and console lines are exactly the count lines. -/
theorem c9_empty_epitope_subset_omits_means_witness :
    (analyze_epitopes ⟨[]⟩ ⟨["uniprot_pos", "uniprot_aa", "label_epitope"],
        [[Value.int 1, Value.str "A", Value.int 0]]⟩
      "structure.pdb" "labels.csv" "o.csv".toList =
      Except.ok (⟨[⟨1, Value.str "A", 0, 0, 0, "Unknown", Value.int 0, Value.int 0⟩],
        [SummaryLine.totalResidues 1, SummaryLine.epitopeResidues 0,
         SummaryLine.nonEpitopeResidues 1],
        [SummaryLine.header, SummaryLine.inputPdb "structure.pdb",
         SummaryLine.truthCsv "labels.csv", SummaryLine.totalResidues 1,
         SummaryLine.epitopeResidues 0, SummaryLine.nonEpitopeResidues 1],
        "o.csv".toList, "o_summary.txt".toList⟩ : RunOutput)) ∧
    epitopeSubset (⟨[⟨1, Value.str "A", 0, 0, 0, "Unknown", Value.int 0, Value.int 0⟩],
        [SummaryLine.totalResidues 1, SummaryLine.epitopeResidues 0,
         SummaryLine.nonEpitopeResidues 1],
        [SummaryLine.header, SummaryLine.inputPdb "structure.pdb",
         SummaryLine.truthCsv "labels.csv", SummaryLine.totalResidues 1,
         SummaryLine.epitopeResidues 0, SummaryLine.nonEpitopeResidues 1],
        "o.csv".toList, "o_summary.txt".toList⟩ : RunOutput).records = [] ∧
    ((∀ l ∈ (⟨[⟨1, Value.str "A", 0, 0, 0, "Unknown", Value.int 0, Value.int 0⟩],
        [SummaryLine.totalResidues 1, SummaryLine.epitopeResidues 0,
         SummaryLine.nonEpitopeResidues 1],
        [SummaryLine.header, SummaryLine.inputPdb "structure.pdb",
         SummaryLine.truthCsv "labels.csv", SummaryLine.totalResidues 1,
         SummaryLine.epitopeResidues 0, SummaryLine.nonEpitopeResidues 1],
        "o.csv".toList, "o_summary.txt".toList⟩ : RunOutput).summaryLines,
        l.isMeanLine = false) ∧
     (∀ l ∈ (⟨[⟨1, Value.str "A", 0, 0, 0, "Unknown", Value.int 0, Value.int 0⟩],
        [SummaryLine.totalResidues 1, SummaryLine.epitopeResidues 0,
         SummaryLine.nonEpitopeResidues 1],
        [SummaryLine.header, SummaryLine.inputPdb "structure.pdb",
         SummaryLine.truthCsv "labels.csv", SummaryLine.totalResidues 1,
         SummaryLine.epitopeResidues 0, SummaryLine.nonEpitopeResidues 1],
        "o.csv".toList, "o_summary.txt".toList⟩ : RunOutput).consoleStats,
        l.isMeanLine = false)) :=
  ⟨rfl, rfl,
   c9_empty_epitope_subset_omits_means ⟨[]⟩
     ⟨["uniprot_pos", "uniprot_aa", "label_epitope"],
      [[Value.int 1, Value.str "A", Value.int 0]]⟩
     "structure.pdb" "labels.csv" "o.csv".toList
     (⟨[⟨1, Value.str "A", 0, 0, 0, "Unknown", Value.int 0, Value.int 0⟩],
       [SummaryLine.totalResidues 1, SummaryLine.epitopeResidues 0,
        SummaryLine.nonEpitopeResidues 1],
       [SummaryLine.header, SummaryLine.inputPdb "structure.pdb",
        SummaryLine.truthCsv "labels.csv", SummaryLine.totalResidues 1,
        SummaryLine.epitopeResidues 0, SummaryLine.nonEpitopeResidues 1],
       "o.csv".toList, "o_summary.txt".toList⟩ : RunOutput) rfl rfl⟩

/-- Claim C10: the three feature maps built from a parsed structure have the
same key list — and a key is in it exactly when some residue of the
iteration is standard (hetero flag " ") and carries that sequence index; an
index belonging only to non-standard residues appears in none of the maps. -/
theorem c10_feature_maps_share_standard_key_set (s : PDBStructure) :
    dictKeys (calculate_sasa s) = dictKeys (extract_plddt_values s) ∧
    dictKeys (calculate_sasa s) = dictKeys (calculate_secondary_structure s) ∧
    ∀ i : Int, i ∈ dictKeys (calculate_sasa s) ↔
      ∃ r ∈ residuesOf s, r.hetfield = " " ∧ r.resSeq = i := by
  refine ⟨?_, ?_, ?_⟩
  · exact keys_buildMapAux_congr _ _ _ _ _ rfl
  · exact keys_buildMapAux_congr _ _ _ _ _ rfl
  · intro i
    have := mem_keys_buildMapAux (fun r => r.sasa) (residuesOf s) [] i
    simpa [calculate_sasa, dictKeys] using this

end AnalyzeStructure
